import Mathlib

/-!
Shallow embedding of the generator engine in `src/gen_impl.rs`
(`GeneratorImpl` and its `Drop` impl).

The engine's own code is translated from the source.  The `Context` struct,
the register-context primitive and the cooperative-yield primitive live in
modules (`rt.rs`, `reg_context.rs`, `yield_.rs`) that are not part of the
sources here; the fields of `Context` that the engine reads and writes
(`_ref`, `parent`, `local_data`, `err`) are modelled from the spec's data
model (§3), and the generator-side effect of a context switch is either an
arbitrary parameter `sw` (for `resume`/`raw_send`, where the user closure
runs) or a spec-modelled function (for cancellation).

Pointers are modelled as natural numbers with `0` playing the role of the
null pointer.  The boxed entry closure `f : Option<Func>` is tracked by
presence only (`Option Unit`); the observable behaviour of the wrapper that
`init_code` boxes around the user closure is embedded separately as
`epilogue`.  Machine registers, the panic hook swap and cache prefetch have
no observable effect in this model and are not represented.
-/

namespace GenImpl

/-- Payload of a captured panic, as classified by `gen_init`'s `check_err`:
the `Error::Cancel` cause, the `Error::StackErr` cause, or an arbitrary
user payload (indexed by a natural number). -/
inductive PanicPayload where
  | cancel
  | stackErr
  | user (n : Nat)
deriving DecidableEq, Repr

/-- State of a `GeneratorImpl<A, T>` together with the `Context` fields the
engine touches.  `state_code` is the context's `_ref` field, `parent` and
`local_data` are pointer values (`0` = null), `err` is the context's error
slot, `para`/`ret` are the input and output slots, and `f` records whether
the boxed entry closure is present. -/
structure GenSt (A T : Type) where
  state_code : Nat
  parent : Nat
  local_data : Nat
  err : Option PanicPayload
  para : Option A
  ret : Option T
  f : Option Unit
deriving DecidableEq, Repr

variable {A T : Type}

/-- `GeneratorImpl::is_started`: the entry closure has been consumed
(`self.f.is_none()`). -/
def is_started (s : GenSt A T) : Bool :=
  s.f.isNone

/-- `GeneratorImpl::is_done`:
`self.is_started() && (self.context._ref & 0x3) != 0`. -/
def is_done (s : GenSt A T) : Bool :=
  is_started s && ((s.state_code &&& 0x3) != 0)

/-- The check `resume_gen` performs after the register swap returns control
to the resuming side (`gen_impl.rs` lines 293-301): if the context's
`local_data` is non-null, return at once; otherwise, if the error slot
holds a payload, take it and re-raise it (`panic::resume_unwind`).  The
second component is the re-raised payload, if any. -/
def post_switch (s : GenSt A T) : GenSt A T × Option PanicPayload :=
  if s.local_data ≠ 0 then (s, none)
  else
    match s.err with
    | some e => ({ s with err := none }, some e)
    | none => (s, none)

/-- `GeneratorImpl::resume_gen`: push the context, swap registers into the
generator stack — everything that happens on the generator side of the
swap is the parameter `sw` — then run the post-switch panic check. -/
def resume_gen (sw : GenSt A T → GenSt A T) (s : GenSt A T) :
    GenSt A T × Option PanicPayload :=
  post_switch (sw s)

/-- Result of one `resume`/`raw_send` call: the state afterwards, the value
returned to the caller (`none` when the call returned no value), the panic
that unwound out of the call (if any), and the number of register swaps
performed. -/
structure RunRes (A T : Type) where
  st : GenSt A T
  out : Option T
  panic : Option PanicPayload
  switches : Nat
deriving DecidableEq, Repr

/-- `GeneratorImpl::resume`: return `None` at once when done; otherwise
increment `_ref`, call `resume_gen`, and take the output slot.  When
`resume_gen` re-raises a captured panic, the `self.ret.take()` line is
never reached and the panic unwinds out of `resume`. -/
def resume (sw : GenSt A T → GenSt A T) (s : GenSt A T) : RunRes A T :=
  if is_done s then ⟨s, none, none, 0⟩
  else
    let s1 : GenSt A T := { s with state_code := s.state_code + 1 }
    match resume_gen sw s1 with
    | (s2, some e) => ⟨s2, none, some e, 1⟩
    | (s2, none) => ⟨{ s2 with ret := none }, s2.ret, none, 1⟩

/-- `GeneratorImpl::raw_send`: return `None` at once when done; otherwise
overwrite the input slot with `para`, increment `_ref`, call `resume_gen`,
and take the output slot. -/
def raw_send (sw : GenSt A T → GenSt A T) (s : GenSt A T)
    (para : Option A) : RunRes A T :=
  if is_done s then ⟨s, none, none, 0⟩
  else
    let s1 : GenSt A T :=
      { s with para := para, state_code := s.state_code + 1 }
    match resume_gen sw s1 with
    | (s2, some e) => ⟨s2, none, some e, 1⟩
    | (s2, none) => ⟨{ s2 with ret := none }, s2.ret, none, 1⟩

/-- How a call to `GeneratorImpl::send` ends: with a value, with the
`expect("send got None return")` panic, or with a panic propagated out of
`raw_send` by `resume_gen`. -/
inductive SendOutcome (T : Type) where
  | value (t : T)
  | expectPanic
  | propagated (e : PanicPayload)
deriving DecidableEq, Repr

/-- `GeneratorImpl::send`: `self.raw_send(Some(para))` followed by
`ret.expect("send got None return")`. -/
def send (sw : GenSt A T → GenSt A T) (s : GenSt A T) (para : A) :
    GenSt A T × SendOutcome T :=
  let r := raw_send sw s (some para)
  match r.panic with
  | some e => (r.st, .propagated e)
  | none =>
    match r.out with
    | some t => (r.st, .value t)
    | none => (r.st, .expectPanic)

/-- The wrapper `init_code` boxes around the user closure (`gen_impl.rs`
lines 251-261): after the closure returns `r`, read the context's `_ref`;
if it equals `0xf` forget `r` and store `None` in the output slot,
otherwise store `Some(r)`. -/
def epilogue (s : GenSt A T) (r : T) : GenSt A T :=
  if s.state_code = 0xf then { s with ret := none }
  else { s with ret := some r }

/-- Modelled from the spec: the generator-side effect of the cancellation
context switch.  The yield primitive (`yield_.rs`) and the register-context
primitive (`reg_context.rs`) are not among the sources; per §4.4 and §4.5
of the spec, on switch-in the body observes the cancel signal, unwinds
through normal stack unwinding, and lands in the trampoline, which
recognizes the cancel cause and swallows it (never storing it in the error
slot); the final cooperative yield decrements `state_code` before switching
back.  The error slot, `local_data` and the value slots are untouched. -/
def cancel_switch (s : GenSt A T) : GenSt A T :=
  { s with state_code := s.state_code - 1 }

/-- `GeneratorImpl::raw_cancel`: set `_ref` to the cancellation sentinel 2,
then perform one switch via `resume_gen` (with the panic hook silenced for
the duration, which has no observable effect here). -/
def raw_cancel (s : GenSt A T) : GenSt A T × Option PanicPayload :=
  resume_gen cancel_switch { s with state_code := 2 }

/-- Result of a `cancel` call: state afterwards, panic unwinding out of the
call (if any), and the number of register swaps performed. -/
structure CancelRes (A T : Type) where
  st : GenSt A T
  panic : Option PanicPayload
  switches : Nat
deriving DecidableEq, Repr

/-- `GeneratorImpl::cancel`: return at once when done; when not yet
started, take the closure and set `_ref` to 1; otherwise `raw_cancel`. -/
def cancel (s : GenSt A T) : CancelRes A T :=
  if is_done s then ⟨s, none, 0⟩
  else if !is_started s then
    ⟨{ s with f := none, state_code := 1 }, none, 0⟩
  else
    match raw_cancel s with
    | (s', p) => ⟨s', p, 1⟩

/-- `GeneratorImpl::init_code` (lines 231-269), with `self_addr` standing
for the address `&mut self.context`: when the closure slot is empty and
`_ref == 0`, force-cancel the engine first, else just take the closure;
then set `parent` to the context itself, reset `_ref` to 0, box the
`epilogue` wrapper into the closure slot and prime the register state
(`regs.init_with` has no observable effect in this model).  A panic raised
by the embedded `cancel` unwinds out of `init_code` before the arming
steps run.  The result carries the state, the escaping panic (if any) and
the number of register swaps performed. -/
def init_code (self_addr : Nat) (s : GenSt A T) :
    GenSt A T × Option PanicPayload × Nat :=
  let step1 : GenSt A T × Option PanicPayload × Nat :=
    if s.f.isNone && s.state_code == 0 then
      let c := cancel s
      (c.st, c.panic, c.switches)
    else
      ({ s with f := none }, none, 0)
  match step1 with
  | (s1, some e, n) => (s1, some e, n)
  | (s1, none, n) =>
    ({ s1 with parent := self_addr, state_code := 0, f := some () },
      none, n)

/-- What unwinds out of `<GeneratorImpl as Drop>::drop`: a panic re-raised
by the embedded `raw_cancel`, a failure of `assert!(self.is_done())`, or
the `panic!(Error::StackErr)` on stack overflow. -/
inductive DropPanic where
  | propagated (e : PanicPayload)
  | assertDone
  | stackErr
deriving DecidableEq, Repr

/-- Result of dropping the engine: state afterwards, whether `raw_cancel`
was invoked, number of register swaps, and the escaping panic (if any). -/
structure DropRes (A T : Type) where
  st : GenSt A T
  cancelled : Bool
  switches : Nat
  panic : Option DropPanic
deriving DecidableEq, Repr

/-- `<GeneratorImpl as Drop>::drop` (lines 420-447): do nothing when the
thread is already panicking; do nothing when not started; `raw_cancel` when
not done; `assert!(self.is_done())`; then compare the stack's used size
against its total size, panicking with `Error::StackErr` unless
`used < total`. -/
def genDrop (panicking : Bool) (total used : Nat) (s : GenSt A T) :
    DropRes A T :=
  if panicking then ⟨s, false, 0, none⟩
  else if !is_started s then ⟨s, false, 0, none⟩
  else
    let step : GenSt A T × Option PanicPayload × Bool × Nat :=
      if !is_done s then
        match raw_cancel s with
        | (s', p) => (s', p, true, 1)
      else (s, none, false, 0)
    match step with
    | (s1, some e, c, n) => ⟨s1, c, n, some (.propagated e)⟩
    | (s1, none, c, n) =>
      if !is_done s1 then ⟨s1, c, n, some .assertDone⟩
      else if used < total then ⟨s1, c, n, none⟩
      else ⟨s1, c, n, some .stackErr⟩

/-! Concrete states used by the witnesses. -/

/-- A started generator that is done: closure consumed, `_ref = 1`. -/
def doneSt : GenSt Nat Nat := ⟨1, 0, 0, none, some 5, some 7, none⟩

/-- An armed generator that has not started yet: closure present. -/
def freshSt : GenSt Nat Nat := ⟨0, 3, 0, none, none, none, some ()⟩

/-- A virgin engine: no closure ever installed, `_ref = 0`. -/
def virginSt : GenSt Nat Nat := ⟨0, 0, 0, none, none, none, none⟩

/-- A context with a local-data tag set and a captured panic payload. -/
def boundarySt : GenSt Nat Nat := ⟨4, 0, 1, some (.user 4), none, none, none⟩

/-- A context with no local-data tag and a captured panic payload. -/
def errSt : GenSt Nat Nat := ⟨4, 0, 0, some (.user 4), none, none, none⟩

/-- A context carrying the forced-finish sentinel `0xf`. -/
def forcedSt : GenSt Nat Nat := ⟨0xf, 0, 0, none, none, none, none⟩

/-! Helper lemmas shared by the proofs below. -/

/-- The post-switch check never changes `state_code` or the closure slot,
so it does not change `is_done`. -/
theorem is_done_post_switch (s : GenSt A T) :
    is_done (post_switch s).1 = is_done s := by
  unfold post_switch
  split
  · rfl
  · cases s.err <;> rfl

/-- The panic re-raised by the post-switch check is the stored payload when
`local_data` is null, and nothing otherwise. -/
theorem post_switch_snd (s : GenSt A T) :
    (post_switch s).2 = if s.local_data = 0 then s.err else none := by
  unfold post_switch
  by_cases h : s.local_data = 0
  · simp only [h, ne_eq, not_true_eq_false, if_false, if_true]
    cases s.err <;> rfl
  · simp only [h, ne_eq, not_false_eq_true, if_true, if_false]

/-- `raw_cancel` is the post-switch check applied to the state with
`state_code` forced to 1 (the sentinel 2 written by `raw_cancel`, minus
the decrement of the final cooperative yield). -/
theorem raw_cancel_eq (s : GenSt A T) :
    raw_cancel s = post_switch { s with state_code := 1 } := rfl

/-- After `raw_cancel`, the state is done as soon as the closure had been
consumed. -/
theorem is_done_raw_cancel (s : GenSt A T) :
    is_done (raw_cancel s).1 = is_started s := by
  rw [raw_cancel_eq, is_done_post_switch]
  simp [is_done, is_started]

/-- The panic escaping `raw_cancel` is the previously stored payload when
`local_data` is null, and nothing otherwise. -/
theorem raw_cancel_snd (s : GenSt A T) :
    (raw_cancel s).2 = if s.local_data = 0 then s.err else none := by
  rw [raw_cancel_eq, post_switch_snd]

/-- C1: on an already-done generator, `resume` and `raw_send` return no
value immediately, leave the whole state unchanged — in particular
`state_code` is not incremented — and perform no context switch, so user
code never runs again, however often they are called. -/
theorem resume_raw_send_on_done (sw : GenSt A T → GenSt A T) (s : GenSt A T)
    (p : Option A) (h : is_done s = true) :
    resume sw s = ⟨s, none, none, 0⟩ ∧ raw_send sw s p = ⟨s, none, none, 0⟩ := by
  constructor <;> simp [resume, raw_send, h]

/-- Witness for C1 at the concrete done state `doneSt`. -/
theorem resume_raw_send_on_done_witness :
    resume id doneSt = ⟨doneSt, none, none, 0⟩ ∧
      raw_send id doneSt (some 9) = ⟨doneSt, none, none, 0⟩ :=
  resume_raw_send_on_done id doneSt (some 9) (by decide)

/-- C10: on an already-done generator, `raw_send` leaves the input slot
unchanged: the early return happens before the slot is overwritten, so the
supplied argument is discarded and the stored input is preserved. -/
theorem raw_send_on_done_preserves_para (sw : GenSt A T → GenSt A T)
    (s : GenSt A T) (p : Option A) (h : is_done s = true) :
    (raw_send sw s p).st.para = s.para := by
  simp [raw_send, h]

/-- Witness for C10: `doneSt` stores input `some 5`, which survives a
`raw_send` of `some 9`. -/
theorem raw_send_on_done_preserves_para_witness :
    (raw_send id doneSt (some 9)).st.para = some 5 :=
  (raw_send_on_done_preserves_para id doneSt (some 9) (by decide)).trans rfl

/-- C3: `is_done` holds iff the entry closure has been consumed (`f` is
`none`) and the low two bits of `state_code` are nonzero. -/
theorem is_done_iff (s : GenSt A T) :
    is_done s = true ↔ (s.f = none ∧ s.state_code &&& 0x3 ≠ 0) := by
  simp [is_done, is_started, Option.isNone_iff_eq_none, Bool.and_eq_true,
    bne_iff_ne]

/-- Witness for C3 at the concrete done state `doneSt`. -/
theorem is_done_iff_witness : is_done doneSt = true :=
  (is_done_iff doneSt).mpr ⟨rfl, by decide⟩

/-- C5: on normal return of the user closure, the epilogue leaves the
output slot empty exactly when `state_code` is the forced-finish sentinel
`0xf`, and writes `Some(result)` for every other value. -/
theorem epilogue_forced_finish (s : GenSt A T) (r : T) :
    (s.state_code = 0xf → (epilogue s r).ret = none) ∧
      (s.state_code ≠ 0xf → (epilogue s r).ret = some r) := by
  constructor <;> intro h <;> simp [epilogue, h]

/-- Witness for C5 at the sentinel state `forcedSt` and the non-sentinel
state `doneSt`. -/
theorem epilogue_forced_finish_witness :
    (epilogue forcedSt 3).ret = none ∧ (epilogue doneSt 3).ret = some 3 :=
  ⟨(epilogue_forced_finish forcedSt 3).1 rfl,
    (epilogue_forced_finish doneSt 3).2 (by decide)⟩

/-- C6: after a context switch returns to the resuming side, a non-null
`local_data` tag makes the check return with the error slot untouched (the
payload stays retrievable), while with a null tag a stored payload is taken
out of the slot and re-raised on the resuming side. -/
theorem post_switch_propagation (s : GenSt A T) :
    (s.local_data ≠ 0 → post_switch s = (s, none)) ∧
      (s.local_data = 0 → ∀ e, s.err = some e →
        post_switch s = ({ s with err := none }, some e)) := by
  constructor
  · intro h
    simp [post_switch, h]
  · intro h e he
    simp [post_switch, h, he]

/-- Witness for C6 at a tagged state (`boundarySt`) and an untagged one
with a stored payload (`errSt`). -/
theorem post_switch_propagation_witness :
    post_switch boundarySt = (boundarySt, none) ∧
      post_switch errSt = ({ errSt with err := none }, some (.user 4)) :=
  ⟨(post_switch_propagation boundarySt).1 (by decide),
    (post_switch_propagation errSt).2 rfl (.user 4) rfl⟩

/-- C2: `send` ends in a panic exactly when the underlying
`raw_send(Some(input))` produces no value — through the
`expect("send got None return")` on a `None` return, or through a panic
propagated out of `raw_send` itself — and otherwise returns exactly the
produced value; it never hands an absence-of-value signal to the caller. -/
theorem send_outcome (sw : GenSt A T → GenSt A T) (s : GenSt A T) (a : A) :
    ((send sw s a).2 = SendOutcome.expectPanic ↔
      (raw_send sw s (some a)).panic = none ∧
        (raw_send sw s (some a)).out = none) ∧
      (∀ t, (send sw s a).2 = SendOutcome.value t ↔
        (raw_send sw s (some a)).panic = none ∧
          (raw_send sw s (some a)).out = some t) ∧
      (∀ e, (send sw s a).2 = SendOutcome.propagated e ↔
        (raw_send sw s (some a)).panic = some e) := by
  cases hp : (raw_send sw s (some a)).panic with
  | some e => simp [send, hp]
  | none =>
    cases ho : (raw_send sw s (some a)).out with
    | some t => simp [send, hp, ho]
    | none => simp [send, hp, ho]

/-- Witness for C2: a `send` on the done state `doneSt` hits the `expect`
panic. -/
theorem send_outcome_witness :
    (send id doneSt 9).2 = SendOutcome.expectPanic :=
  (send_outcome id doneSt 9).1.mpr ⟨by decide, by decide⟩

/-- C4: when the closure slot is empty and `state_code = 0`, `init_code`
force-cancels first — its panic and switch count are exactly those of the
embedded `cancel`, and on normal return the closure is installed into the
cancelled state — and whenever `init_code` returns normally it has reset
`state_code` to 0 and pointed `parent` at the context itself. -/
theorem init_code_arms (addr : Nat) (s : GenSt A T) :
    (s.f = none → s.state_code = 0 →
      (init_code addr s).2.1 = (cancel s).panic ∧
        (init_code addr s).2.2 = (cancel s).switches ∧
        ((cancel s).panic = none →
          (init_code addr s).1 =
            { (cancel s).st with
                parent := addr, state_code := 0, f := some () })) ∧
      ((init_code addr s).2.1 = none →
        (init_code addr s).1.state_code = 0 ∧
          (init_code addr s).1.parent = addr) := by
  by_cases hc : (s.f.isNone && s.state_code == 0) = true
  · cases hp : (cancel s).panic with
    | some e =>
      have hval : init_code addr s = ((cancel s).st, some e, (cancel s).switches) := by
        simp [init_code, hc, hp]
      refine ⟨fun _ _ => ⟨?_, ?_, ?_⟩, ?_⟩ <;> simp [hval, hp]
    | none =>
      have hval : init_code addr s =
          ({ (cancel s).st with parent := addr, state_code := 0, f := some () },
            none, (cancel s).switches) := by
        simp [init_code, hc, hp]
      refine ⟨fun _ _ => ⟨?_, ?_, ?_⟩, ?_⟩ <;> simp [hval, hp]
  · have hval : init_code addr s =
        ({ s with parent := addr, state_code := 0, f := some () }, none, 0) := by
      simp [init_code, hc]
    refine ⟨fun h1 h2 => absurd (by simp [h1, h2]) hc, ?_⟩
    simp [hval]

/-- Witness for C4 at the virgin engine `virginSt`: the force-cancel's one
switch happened and arming set `parent` to the given context address. -/
theorem init_code_arms_witness :
    (init_code 5 virginSt).2.2 = 1 ∧ (init_code 5 virginSt).1.parent = 5 := by
  have h := init_code_arms (A := Nat) (T := Nat) 5 virginSt
  refine ⟨((h.1 rfl rfl).2.1).trans (by decide), (h.2 ?_).2⟩
  exact ((h.1 rfl rfl).1).trans (by decide)

/-- C7: cancelling a not-yet-done generator always leaves it done; the
cancellation cause itself never escapes `cancel` as a panic (only a
payload already stored in the error slot can, and it is never the cancel
cause); and on a not-yet-started generator, `cancel` just discards the
stored entry closure and marks it done, with no context switch. -/
theorem cancel_leaves_done (s : GenSt A T) (hnd : is_done s = false) :
    is_done (cancel s).st = true ∧
      (s.err ≠ some PanicPayload.cancel →
        ∀ e, (cancel s).panic = some e → e ≠ PanicPayload.cancel) ∧
      (s.f.isSome = true →
        cancel s = ⟨{ s with f := none, state_code := 1 }, none, 0⟩) := by
  cases hs : is_started s with
  | true =>
    rcases hrc : raw_cancel s with ⟨s', p⟩
    have h1 : cancel s = ⟨s', p, 1⟩ := by
      simp [cancel, hnd, hs, hrc]
    have hdone : is_done s' = true := by
      have h := is_done_raw_cancel s
      rw [hrc] at h
      exact h.trans hs
    have hp : p = if s.local_data = 0 then s.err else none := by
      have h := raw_cancel_snd s
      rw [hrc] at h
      exact h
    refine ⟨?_, ?_, ?_⟩
    · rw [h1]
      exact hdone
    · intro herr e he
      rw [h1] at he
      replace he : p = some e := he
      rw [hp] at he
      by_cases hl : s.local_data = 0
      · rw [if_pos hl] at he
        intro hec
        rw [hec] at he
        exact herr he
      · rw [if_neg hl] at he
        exact absurd he (by simp)
    · intro hf
      simp [is_started, Option.isNone_iff_eq_none] at hs
      simp [hs] at hf
  | false =>
    have h1 : cancel s = ⟨{ s with f := none, state_code := 1 }, none, 0⟩ := by
      simp [cancel, hnd, hs]
    refine ⟨?_, ?_, ?_⟩
    · rw [h1]
      simp [is_done, is_started]
    · intro _ e he
      rw [h1] at he
      exact absurd he (by simp)
    · intro _
      exact h1

/-- Witness for C7 at the armed-but-unstarted state `freshSt` (no-switch
branch) and the suspended state `errSt` (the escaping payload is not the
cancel cause). -/
theorem cancel_leaves_done_witness :
    is_done (cancel freshSt).st = true ∧
      cancel freshSt = ⟨{ freshSt with f := none, state_code := 1 }, none, 0⟩ ∧
      PanicPayload.user 4 ≠ PanicPayload.cancel :=
  ⟨(cancel_leaves_done freshSt (by decide)).1,
    (cancel_leaves_done freshSt (by decide)).2.2 rfl,
    (cancel_leaves_done errSt (by decide)).2.1 (by decide) (PanicPayload.user 4)
      (by decide)⟩

/-- C8: dropping on an already-panicking thread does nothing at all;
dropping a started, not-yet-done generator performs the automatic cancel
and reaches the done state; and the `assert!(self.is_done())` that guards
memory reclamation never fails. -/
theorem drop_cancels (total used : Nat) (s : GenSt A T) :
    genDrop true total used s = ⟨s, false, 0, none⟩ ∧
      (is_started s = true → is_done s = false →
        (genDrop false total used s).cancelled = true ∧
          is_done (genDrop false total used s).st = true) ∧
      (genDrop false total used s).panic ≠ some DropPanic.assertDone := by
  refine ⟨by simp [genDrop], ?_⟩
  cases hs : is_started s with
  | false =>
    have h1 : genDrop false total used s = ⟨s, false, 0, none⟩ := by
      simp [genDrop, hs]
    refine ⟨fun hstart _ => absurd hstart (by simp), ?_⟩
    rw [h1]
    simp
  | true =>
    cases hd : is_done s with
    | true =>
      have h1 : genDrop false total used s =
          if used < total then ⟨s, false, 0, none⟩
          else ⟨s, false, 0, some .stackErr⟩ := by
        simp [genDrop, hs, hd]
      refine ⟨fun _ hnd => absurd hnd (by simp), ?_⟩
      rw [h1]
      split <;> simp
    | false =>
      rcases hrc : raw_cancel s with ⟨s', p⟩
      have hdone : is_done s' = true := by
        have h := is_done_raw_cancel s
        rw [hrc] at h
        exact h.trans hs
      cases p with
      | some e =>
        have h1 : genDrop false total used s = ⟨s', true, 1, some (.propagated e)⟩ := by
          simp [genDrop, hs, hd, hrc]
        refine ⟨fun _ _ => ⟨?_, ?_⟩, ?_⟩
        · rw [h1]
        · rw [h1]
          exact hdone
        · rw [h1]
          simp
      | none =>
        have h1 : genDrop false total used s =
            if used < total then ⟨s', true, 1, none⟩
            else ⟨s', true, 1, some .stackErr⟩ := by
          simp [genDrop, hs, hd, hrc, hdone]
        refine ⟨fun _ _ => ⟨?_, ?_⟩, ?_⟩
        · rw [h1]
          split <;> rfl
        · rw [h1]
          split <;> exact hdone
        · rw [h1]
          split <;> simp

/-- Witness for C8 at the suspended state `errSt` with stack sizes 10/4. -/
theorem drop_cancels_witness :
    genDrop true 10 4 errSt = ⟨errSt, false, 0, none⟩ ∧
      (genDrop false 10 4 errSt).cancelled = true ∧
      is_done (genDrop false 10 4 errSt).st = true :=
  ⟨(drop_cancels 10 4 errSt).1,
    ((drop_cancels 10 4 errSt).2.1 rfl (by decide)).1,
    ((drop_cancels 10 4 errSt).2.1 rfl (by decide)).2⟩

/-- C9: at drop of a started generator on a non-panicking thread (with no
pending foreign payload to re-raise on the way), a fully consumed stack
(`used ≥ total`) raises the fatal `StackErr` panic, and `used < total`
lets drop complete with no panic at all. -/
theorem drop_stack_overflow (total used : Nat) (s : GenSt A T)
    (hs : is_started s = true) (hinv : s.local_data ≠ 0 ∨ s.err = none) :
    (total ≤ used →
        (genDrop false total used s).panic = some DropPanic.stackErr) ∧
      (used < total → (genDrop false total used s).panic = none) := by
  cases hd : is_done s with
  | true =>
    have h1 : genDrop false total used s =
        if used < total then ⟨s, false, 0, none⟩
        else ⟨s, false, 0, some .stackErr⟩ := by
      simp [genDrop, hs, hd]
    constructor
    · intro hle
      rw [h1, if_neg (Nat.not_lt.mpr hle)]
    · intro hlt
      rw [h1, if_pos hlt]
  | false =>
    rcases hrc : raw_cancel s with ⟨s', p⟩
    have hdone : is_done s' = true := by
      have h := is_done_raw_cancel s
      rw [hrc] at h
      exact h.trans hs
    have hp : p = none := by
      have h := raw_cancel_snd s
      rw [hrc] at h
      replace h : p = if s.local_data = 0 then s.err else none := h
      cases hinv with
      | inl hl => rw [h, if_neg (by simpa using hl)]
      | inr he => rw [h, he]; split <;> rfl
    subst hp
    have h1 : genDrop false total used s =
        if used < total then ⟨s', true, 1, none⟩
        else ⟨s', true, 1, some .stackErr⟩ := by
      simp [genDrop, hs, hd, hrc, hdone]
    constructor
    · intro hle
      rw [h1, if_neg (Nat.not_lt.mpr hle)]
    · intro hlt
      rw [h1, if_pos hlt]

/-- Witness for C9 at the done state `doneSt`: stack sizes 10/10 overflow,
10/4 pass cleanly. -/
theorem drop_stack_overflow_witness :
    (genDrop false 10 10 doneSt).panic = some DropPanic.stackErr ∧
      (genDrop false 10 4 doneSt).panic = none :=
  ⟨(drop_stack_overflow 10 10 doneSt rfl (Or.inr rfl)).1 (by decide),
    (drop_stack_overflow 10 4 doneSt rfl (Or.inr rfl)).2 (by decide)⟩

end GenImpl
